import Mathlib

/-!
Verification of the conversational music-production workflow engine.

The Python sources are shallowly embedded: each LangGraph node becomes a pure
Lean function from the unified conversation state (plus the external inputs the
node consumes: the structured LLM decision, the provider call outcome, the user
resume value) to a `StepResult` holding the state update, the routing target,
the messages sent out over the chat transport, and whether a generation
provider was actually invoked.  LangGraph `Command(update=..., goto=...)`
becomes `StepResult`; the `add`-annotated `messages` channel appends, every
other updated key overwrites.
-/

/-- Mirror of `state.UnifiedState` (the fields used by the supervisor steps).
Optional Python fields become `Option`; `retry_count` is a `Nat`. -/
structure UnifiedState where
  phone_number : String
  messages : List String
  user_request : Option String
  communication_action : Option String
  communication_description : Option String
  current_stage : String
  task_queue : List String
  completed_tasks : List String
  music_prompt : Option String
  music_style : Option String
  music_title : Option String
  generated_audio_ids : List String
  generated_audio_urls : List String
  generated_audio_file_paths : List String
  selected_audio_index : Option Nat
  selected_audio_id : Option String
  selected_audio_url : Option String
  selected_audio_file_path : Option String
  is_music_generated : Bool
  is_music_selected : Bool
  cover_description : Option String
  cover_prompt : Option String
  cover_image_path : Option String
  cover_image_id : Option String
  is_cover_generated : Bool
  video_file_path : Option String
  is_video_generated : Bool
  is_remake_requested : Bool
  remake_instructions : Option String
  error_message : Option String
  last_error_stage : Option String
  retry_count : Nat
  deriving Repr, DecidableEq

/-- Mirror of `state.create_initial_state`. -/
def create_initial_state (phone_number initial_message : String) : UnifiedState where
  phone_number := phone_number
  messages := ["User: " ++ initial_message]
  user_request := some initial_message
  communication_action := none
  communication_description := none
  current_stage := "idle"
  task_queue := []
  completed_tasks := []
  music_prompt := none
  music_style := none
  music_title := none
  generated_audio_ids := []
  generated_audio_urls := []
  generated_audio_file_paths := []
  selected_audio_index := none
  selected_audio_id := none
  selected_audio_url := none
  selected_audio_file_path := none
  is_music_generated := false
  is_music_selected := false
  cover_description := none
  cover_prompt := none
  cover_image_path := none
  cover_image_id := none
  is_cover_generated := false
  video_file_path := none
  is_video_generated := false
  is_remake_requested := false
  remake_instructions := none
  error_message := none
  last_error_stage := none
  retry_count := 0

/-- A partial state update, mirroring the `update` dict of a LangGraph
`Command`.  `none` means the key is absent from the dict (field untouched);
for state fields that are themselves optional the update value is again an
`Option`.  `messages` is append-only (the `add` reducer). -/
structure StateUpdate where
  messages : List String := []
  user_request : Option (Option String) := none
  communication_action : Option (Option String) := none
  communication_description : Option (Option String) := none
  current_stage : Option String := none
  task_queue : Option (List String) := none
  completed_tasks : Option (List String) := none
  music_prompt : Option (Option String) := none
  music_style : Option (Option String) := none
  music_title : Option (Option String) := none
  generated_audio_ids : Option (List String) := none
  generated_audio_urls : Option (List String) := none
  generated_audio_file_paths : Option (List String) := none
  selected_audio_index : Option (Option Nat) := none
  selected_audio_id : Option (Option String) := none
  selected_audio_url : Option (Option String) := none
  selected_audio_file_path : Option (Option String) := none
  is_music_generated : Option Bool := none
  is_music_selected : Option Bool := none
  cover_description : Option (Option String) := none
  cover_prompt : Option (Option String) := none
  cover_image_path : Option (Option String) := none
  cover_image_id : Option (Option String) := none
  is_cover_generated : Option Bool := none
  video_file_path : Option (Option String) := none
  is_video_generated : Option Bool := none
  is_remake_requested : Option Bool := none
  remake_instructions : Option (Option String) := none
  error_message : Option (Option String) := none
  last_error_stage : Option (Option String) := none
  retry_count : Option Nat := none
  deriving Repr, DecidableEq

/-- Merge an update into the state: `messages` appends, everything else
overwrites when present. -/
def applyUpdate (s : UnifiedState) (u : StateUpdate) : UnifiedState where
  phone_number := s.phone_number
  messages := s.messages ++ u.messages
  user_request := u.user_request.getD s.user_request
  communication_action := u.communication_action.getD s.communication_action
  communication_description := u.communication_description.getD s.communication_description
  current_stage := u.current_stage.getD s.current_stage
  task_queue := u.task_queue.getD s.task_queue
  completed_tasks := u.completed_tasks.getD s.completed_tasks
  music_prompt := u.music_prompt.getD s.music_prompt
  music_style := u.music_style.getD s.music_style
  music_title := u.music_title.getD s.music_title
  generated_audio_ids := u.generated_audio_ids.getD s.generated_audio_ids
  generated_audio_urls := u.generated_audio_urls.getD s.generated_audio_urls
  generated_audio_file_paths := u.generated_audio_file_paths.getD s.generated_audio_file_paths
  selected_audio_index := u.selected_audio_index.getD s.selected_audio_index
  selected_audio_id := u.selected_audio_id.getD s.selected_audio_id
  selected_audio_url := u.selected_audio_url.getD s.selected_audio_url
  selected_audio_file_path := u.selected_audio_file_path.getD s.selected_audio_file_path
  is_music_generated := u.is_music_generated.getD s.is_music_generated
  is_music_selected := u.is_music_selected.getD s.is_music_selected
  cover_description := u.cover_description.getD s.cover_description
  cover_prompt := u.cover_prompt.getD s.cover_prompt
  cover_image_path := u.cover_image_path.getD s.cover_image_path
  cover_image_id := u.cover_image_id.getD s.cover_image_id
  is_cover_generated := u.is_cover_generated.getD s.is_cover_generated
  video_file_path := u.video_file_path.getD s.video_file_path
  is_video_generated := u.is_video_generated.getD s.is_video_generated
  is_remake_requested := u.is_remake_requested.getD s.is_remake_requested
  remake_instructions := u.remake_instructions.getD s.remake_instructions
  error_message := u.error_message.getD s.error_message
  last_error_stage := u.last_error_stage.getD s.last_error_stage
  retry_count := u.retry_count.getD s.retry_count

/-- Result of running one node: the `Command` it returns plus the observable
side effects of the run (messages sent over the transport, whether a
generation provider call was made). -/
structure StepResult where
  update : StateUpdate
  goto : String
  outbound : List String := []
  providerInvoked : Bool := false
  deriving Repr, DecidableEq

/-- Python truthiness of an optional string (`None` and `""` are falsy). -/
def pyTruthyStr (o : Option String) : Bool :=
  match o with
  | none => false
  | some s => s ≠ ""

/-- The list comprehension `[p for p in paths if p]` over optional strings. -/
def truthyPaths (l : List (Option String)) : List String :=
  l.filterMap fun o =>
    match o with
    | none => none
    | some s => if s = "" then none else some s

/-- Interrupt points of the compiled graph
(`interrupt_before=["wait_user", "music_selection_handler"]` in
`build_graph`): the engine halts before these nodes and waits for an inbound
event. -/
def interrupt_before_nodes : List String := ["wait_user", "music_selection_handler"]

/-- Outcome of `SunoAPI.create_music` as observed by `music_generator`:
either generated audio lists (ids, urls, downloaded-file addresses, the last
possibly containing `None`s) or a failure with an optional error string
(absent key modeled as `none`). -/
inductive MusicApiOutcome where
  | generated (ids urls : List String) (file_adress : List (Option String))
  | failed (err : Option String)
  deriving Repr, DecidableEq

/-- The apology sent by `music_generator` when the retry cap is reached. -/
def apology_message : String :=
  "😔 Müzik üretiminde sorun yaşıyorum. Lütfen biraz sonra tekrar dene veya farklı bir istek yap."

/-- Mirror of `SystemSupervisor.music_generator`.  `params_style` and
`params_title` stand for the structured LLM output `music_params`; `api` is
the outcome of the `suno_api.create_music` call. -/
def music_generator (params_style params_title : String) (api : MusicApiOutcome)
    (s : UnifiedState) : StepResult :=
  let retry_count := s.retry_count
  if retry_count ≥ 2 then
    { outbound := [apology_message]
      update :=
        { error_message := some (some "Max retry exceeded")
          current_stage := some "idle"
          retry_count := some 0
          task_queue := some []
          messages := ["System: ❌ Müzik üretimi başarısız - max retry"] }
      goto := "wait_user" }
  else
    match api with
    | .generated ids urls file_adress =>
      let audio_paths := truthyPaths file_adress
      if audio_paths = [] then
        { providerInvoked := true
          update :=
            { error_message := some (some "Müzikler indirilemedi")
              last_error_stage := some (some "music_generator")
              retry_count := some (retry_count + 1)
              messages := ["System: ❌ Müzikler indirilemedi (deneme " ++
                toString (retry_count + 1) ++ ")"] }
          goto := "communication_agent" }
      else
        { providerInvoked := true
          update :=
            { current_stage := some "awaiting_music_selection"
              is_music_generated := some true
              generated_audio_ids := some ids
              generated_audio_urls := some urls
              generated_audio_file_paths := some audio_paths
              music_style := some (some params_style)
              music_title := some (some params_title)
              task_queue := some s.task_queue.tail
              completed_tasks := some (s.completed_tasks ++ ["music"])
              retry_count := some 0
              messages := ["System: 🎵 " ++ toString audio_paths.length ++
                " müzik üretildi, seçim bekleniyor"] }
          goto := "music_selection_prompt" }
    | .failed err =>
      { providerInvoked := true
        update :=
          { error_message := some (some (err.getD "Müzik üretilemedi"))
            last_error_stage := some (some "music_generator")
            retry_count := some (retry_count + 1)
            messages := ["System: ❌ Müzik üretiminde hata (deneme " ++
              toString (retry_count + 1) ++ ")"] }
        goto := "communication_agent" }

/-- Outcome of the `google_api.generate_image` call inside `cover_generator`:
the generated path, or the raised exception's message. -/
inductive CoverApiOutcome where
  | generated (path : String)
  | failed (err : String)
  deriving Repr, DecidableEq

/-- Mirror of `SystemSupervisor.cover_generator`.  `cover_id` models the
fresh uuid, `cover_prompt_text` the structured LLM output `result.prompt`.
Note: the step performs no prerequisite check on the music artifact; it
always reaches the image-generation call. -/
def cover_generator (cover_id cover_prompt_text : String) (api : CoverApiOutcome)
    (s : UnifiedState) : StepResult :=
  match api with
  | .generated generated_path =>
    let remaining_tasks := s.task_queue.filter fun t => t ≠ "cover"
    let completed := s.completed_tasks ++ ["cover"]
    let has_video := remaining_tasks.contains "video"
    { providerInvoked := true
      update :=
        { cover_image_path := some (some generated_path)
          cover_image_id := some (some cover_id)
          cover_prompt := some (some cover_prompt_text)
          is_cover_generated := some true
          current_stage := some (if has_video then "generating_video" else "delivering")
          task_queue := some remaining_tasks
          completed_tasks := some completed
          messages := ["System: 🖼️ Kapak üretildi"] }
      goto := if has_video then "video_generator" else "delivery_agent" }
  | .failed e =>
    { providerInvoked := true
      update :=
        { error_message := some (some e)
          last_error_stage := some (some "cover_generator")
          messages := ["System: ❌ Kapak üretiminde hata: " ++ e] }
      goto := "communication_agent" }

/-- Outcome of the ffmpeg mux inside `video_generator`: success, or the
raised exception's message (subprocess failure or empty output file). -/
inductive FfmpegOutcome where
  | ok
  | failed (err : String)
  deriving Repr, DecidableEq

/-- Mirror of `SystemSupervisor.video_generator`.  `output_name` models the
fresh uuid-based file name.  The prerequisite check (`if not image_path or
not audio_path`) runs before the ffmpeg call is reached. -/
def video_generator (output_name : String) (ffmpeg : FfmpegOutcome)
    (s : UnifiedState) : StepResult :=
  if !pyTruthyStr s.cover_image_path || !pyTruthyStr s.selected_audio_file_path then
    { update :=
        { error_message := some (some "Video için eksik dosya")
          messages := ["System: ❌ Video için müzik veya kapak eksik"] }
      goto := "communication_agent" }
  else
    match ffmpeg with
    | .ok =>
      let output_path := "artifacts/final_videos/" ++ output_name
      let remaining_tasks := s.task_queue.filter fun t => t ≠ "video"
      let completed := s.completed_tasks ++ ["video"]
      { providerInvoked := true
        update :=
          { video_file_path := some (some output_path)
            is_video_generated := some true
            current_stage := some "delivering"
            task_queue := some remaining_tasks
            completed_tasks := some completed
            messages := ["System: 🎬 Video oluşturuldu"] }
        goto := "delivery_agent" }
    | .failed e =>
      { providerInvoked := true
        update :=
          { error_message := some (some e)
            last_error_stage := some (some "video_generator")
            messages := ["System: ❌ Video oluşturulamadı: " ++ e] }
        goto := "communication_agent" }

/-- Character-list version of `startswith`. -/
def startsWithChars : List Char → List Char → Bool
  | _, [] => true
  | [], _ :: _ => false
  | c :: cs, p :: ps => c = p && startsWithChars cs ps

/-- Character-list version of Python `pat in s` (substring containment). -/
def containsChars : List Char → List Char → Bool
  | [], pat => pat.isEmpty
  | c :: cs, pat => startsWithChars (c :: cs) pat || containsChars cs pat

/-- Python `pat in s` on strings. -/
def strContains (s pat : String) : Bool := containsChars s.toList pat.toList

/-- ASCII lowering of one character (the fragment of Python `str.lower`
exercised by the selection replies). -/
def asciiLower (c : Char) : Char :=
  if 'A' ≤ c && c ≤ 'Z' then Char.ofNat (c.toNat + 32) else c

/-- Whitespace as stripped by Python `str.strip`. -/
def isSpaceChar (c : Char) : Bool :=
  c = ' ' || c = '\t' || c = '\n' || c = '\r'

/-- Python `s.lower().strip()` on the character list of `s`. -/
def pyLowerStrip (s : String) : String :=
  String.mk ((((s.data.map asciiLower).dropWhile isSpaceChar).reverse.dropWhile isSpaceChar).reverse)

/-- Left-to-right non-overlapping replacement on character lists, with the
list length as structural fuel. -/
def replaceFuel (pat repl : List Char) : Nat → List Char → List Char
  | 0, l => l
  | _ + 1, [] => []
  | fuel + 1, c :: cs =>
    if pat.isEmpty then c :: cs
    else if startsWithChars (c :: cs) pat then
      repl ++ replaceFuel pat repl fuel ((c :: cs).drop pat.length)
    else c :: replaceFuel pat repl fuel cs

/-- Python `s.replace(pat, repl)`. -/
def strReplace (s pat repl : String) : String :=
  String.mk (replaceFuel pat.data repl.data s.data.length s.data)

/-- The replies recognized as choosing the first candidate. -/
def selection_one_words : List String := ["1", "bir", "birinci", "ilk"]

/-- The replies recognized as choosing the second candidate. -/
def selection_two_words : List String := ["2", "iki", "ikinci"]

/-- Python `lst[i] if lst else None`: `some none` when the list is empty
(falsy), `some (some v)` when the index is in range, `none` for the
`IndexError` raised on a non-empty list with the index out of range. -/
def pyIndex (l : List String) (i : Nat) : Option (Option String) :=
  if l = [] then some none else (l.get? i).map some

/-- Common part of the three `selected_index is not None` branches of
`music_selection_handler`: set the selection fields from the candidate
lists at `idx` and advance to the next queued task. -/
def applySelection (user_response sel_message : String) (idx : Nat)
    (s : UnifiedState) : Option StepResult := do
  let sid ← pyIndex s.generated_audio_ids idx
  let surl ← pyIndex s.generated_audio_urls idx
  let spath ← pyIndex s.generated_audio_file_paths idx
  let has_cover := s.task_queue.contains "cover"
  some
    { update :=
        { messages := ["User: " ++ user_response, sel_message]
          selected_audio_index := some (some idx)
          selected_audio_id := some sid
          selected_audio_url := some surl
          selected_audio_file_path := some spath
          is_music_selected := some true
          current_stage := some (if has_cover then "generating_cover" else "delivering") }
      goto := if has_cover then "cover_generator" else "delivery_agent" }

/-- Mirror of `SystemSupervisor.music_selection_handler` after the
`interrupt` resumes with `user_response`.  Returns `none` exactly when the
Python code would raise `IndexError` (candidate list non-empty but shorter
than the selected index). -/
def music_selection_handler (user_response : String) (s : UnifiedState) :
    Option StepResult :=
  let response_lower := pyLowerStrip user_response
  if selection_one_words.contains response_lower then
    applySelection user_response "System: Birinci müzik seçildi" 0 s
  else if selection_two_words.contains response_lower then
    applySelection user_response "System: İkinci müzik seçildi" 1 s
  else if strContains response_lower "ikisi" || strContains response_lower "her iki" then
    applySelection user_response
      "System: Her iki müzik de kabul edildi, birincisi kullanılacak" 0 s
  else if strContains response_lower "hiçbiri" || strContains response_lower "yeniden" ||
      strContains response_lower "tekrar" then
    some
      { update :=
          { messages := ["User: " ++ user_response, "System: Müzik yeniden üretilecek"]
            is_remake_requested := some true
            remake_instructions := some (some user_response)
            current_stage := some "generating_music" }
        goto := "music_generator" }
  else
    some
      { update :=
          { messages := ["User: " ++ user_response,
              "System: Geri bildirime göre yeniden üretilecek: " ++ user_response]
            is_remake_requested := some true
            remake_instructions := some (some user_response)
            current_stage := some "generating_music" }
        goto := "music_generator" }

/-- The task literals `TaskPlannerDecisionBaseModel.tasks` ranges over. -/
def planner_task_literals : List String :=
  ["music", "cover", "video", "persona_save", "remake"]

/-- Mirror of `TaskPlannerDecisionBaseModel`: the structured output the
planner LLM returns. -/
structure TaskPlannerDecision where
  tasks : List String
  music_description : Option String
  cover_description : Option String
  remake_instructions : Option String
  response_to_user : String
  deriving Repr, DecidableEq

/-- Mirror of `SystemSupervisor.task_planner` given the LLM decision `d`. -/
def task_planner (d : TaskPlannerDecision) (_s : UnifiedState) : StepResult :=
  let next_node :=
    match d.tasks.head? with
    | some first_task =>
      if first_task = "music" then "music_generator"
      else if first_task = "cover" then "cover_generator"
      else if first_task = "video" then "video_generator"
      else if first_task = "remake" then "music_remake"
      else "communication_agent"
    | none => "communication_agent"
  { outbound := [d.response_to_user]
    update :=
      { current_stage := some "planning"
        task_queue := some d.tasks
        music_prompt := some d.music_description
        cover_description := some d.cover_description
        remake_instructions := some d.remake_instructions
        messages := ["Assistant: " ++ d.response_to_user] }
    goto := next_node }

/-- The action literals of `CommunicationDecisionBaseModel`. -/
inductive CommAction where
  | send_message | send_music | send_cover | send_video
  | choice_persona | task_planner | wait_user | finish
  deriving Repr, DecidableEq

/-- The node name a communication action routes to. -/
def CommAction.node : CommAction → String
  | .send_message => "send_message"
  | .send_music => "send_music"
  | .send_cover => "send_cover"
  | .send_video => "send_video"
  | .choice_persona => "choice_persona"
  | .task_planner => "task_planner"
  | .wait_user => "wait_user"
  | .finish => "finish"

/-- Mirror of `SystemSupervisor.communication_agent` given the structured LLM
decision (`result.action`, `result.description`). -/
def communication_agent (action : CommAction) (description : String)
    (_s : UnifiedState) : StepResult :=
  { update :=
      { communication_action := some (some action.node)
        communication_description := some (some description) }
    goto := action.node }

/-- Mirror of `SystemSupervisor.wait_user` once the `interrupt` resumes with
the inbound user text. -/
def wait_user (user_response : String) (_s : UnifiedState) : StepResult :=
  { update :=
      { messages := ["User: " ++ user_response]
        user_request := some (some user_response) }
    goto := "communication_agent" }

/-- Mirror of `SystemSupervisor.music_selection_prompt` (quotation marks of
the original instruction text dropped). -/
def music_selection_prompt (s : UnifiedState) : StepResult :=
  let audio_paths := s.generated_audio_file_paths.filter fun p => p ≠ ""
  if audio_paths = [] then
    { outbound := ["😔 Müzikler indirilemedi. Biraz bekleyip tekrar deneyelim mi?"]
      update :=
        { messages := ["System: ❌ Müzik dosyaları bulunamadı"]
          current_stage := some "idle" }
      goto := "wait_user" }
  else
    { outbound := ["🎵 Sana 2 farklı versiyon ürettim! Seçeneklerin: 1 veya 2, ikisi de, hiçbiri, veya geri bildirim yaz"]
      update :=
        { messages := ["Assistant: seçim mesajı", "System: 🎵 Müzik linkleri gönderildi"]
          current_stage := some "awaiting_music_selection" }
      goto := "music_selection_handler" }

/-- Mirror of `SystemSupervisor.delivery_agent` (link sends assumed to
succeed; link text abbreviated). -/
def delivery_agent (s : UnifiedState) : StepResult :=
  let delivered :=
    (if s.is_music_selected && pyTruthyStr s.selected_audio_file_path then ["music"] else []) ++
    (if s.is_cover_generated && pyTruthyStr s.cover_image_path then ["cover"] else []) ++
    (if s.is_video_generated && pyTruthyStr s.video_file_path then ["video"] else [])
  let closing_message :=
    if delivered ≠ [] then "✨ Tüm içerikler hazır! Başka bir şey ister misin?"
    else "Hmm, gönderecek içerik bulamadım. Ne yapmamı istersin?"
  { outbound := [closing_message]
    update :=
      { messages := ["System: Teslim edildi: " ++ String.intercalate ", " delivered,
          "Assistant: " ++ closing_message]
        current_stage := some "completed" }
    goto := "wait_user" }

/-- One record of `processed_messages` in `deneme_workflow`
(`{message_id, hash, timestamp}`); time in whole seconds. -/
structure DupRecord where
  message_id : Option String
  hash : String
  timestamp : Nat
  deriving Repr, DecidableEq

/-- The `processed_messages` dict: at most one record per phone, modeled as
an association list. -/
def DupStore := List (String × DupRecord)

instance : DecidableEq DupStore := by
  unfold DupStore
  infer_instance

/-- Mirror of `get_message_hash`.  The md5 digest of `f"{phone}:{text}"` is
modeled by the digested string itself: a deterministic, collision-free
fingerprint, which is exactly what the duplicate check relies on. -/
def get_message_hash (phone text : String) : String := phone ++ ":" ++ text

/-- The lazy garbage collection at the top of `is_duplicate_message`:
records strictly older than 30 seconds are removed. -/
def purgeStore (store : DupStore) (now : Nat) : DupStore :=
  store.filter fun pr => !(now - pr.2.timestamp > 30)

/-- Dict lookup `processed_messages[phone]`. -/
def lookupStore (store : DupStore) (phone : String) : Option DupRecord :=
  (store.find? fun pr => pr.1 = phone).map fun pr => pr.2

/-- Dict assignment `processed_messages[phone] = record`. -/
def setStore (store : DupStore) (phone : String) (r : DupRecord) : DupStore :=
  (store.filter fun pr => pr.1 ≠ phone) ++ [(phone, r)]

/-- Python truthiness of the `message_id` argument. -/
def pyTruthyId (o : Option String) : Bool :=
  match o with
  | none => false
  | some s => s ≠ ""

/-- Mirror of `is_duplicate_message`: purge expired records, then compare
against the retained record for this phone (same truthy `message_id`, or
same hash seen less than 30 seconds ago); record the event when it is not a
duplicate.  Returns the verdict and the updated store. -/
def is_duplicate_message (store : DupStore) (now : Nat) (phone text : String)
    (message_id : Option String) : Bool × DupStore :=
  let msg_hash := get_message_hash phone text
  let store1 := purgeStore store now
  match lookupStore store1 phone with
  | some prev =>
    if pyTruthyId message_id && prev.message_id = message_id then
      (true, store1)
    else if prev.hash = msg_hash && now - prev.timestamp < 30 then
      (true, store1)
    else
      (false, setStore store1 phone ⟨message_id, msg_hash, now⟩)
  | none => (false, setStore store1 phone ⟨message_id, msg_hash, now⟩)

/-- Mirror of `WhatsApp._clean_phone` / the normalization inside
`is_allowed`: remove `+` and spaces and the `@s.whatsapp.net` marker. -/
def clean_phone (phone : String) : String :=
  strReplace (strReplace (strReplace phone "+" "") " " "") "@s.whatsapp.net" ""

/-- Mirror of `WhatsApp.is_allowed`. -/
def is_allowed (allowed_numbers : List String) (phone : String) : Bool :=
  if allowed_numbers = [] then true
  else allowed_numbers.contains (clean_phone phone)

/-- The fragment of an Evolution webhook envelope consumed by
`WhatsApp.parse_webhook`; only plain-text (`conversation`) messages are
embedded, media kinds are out of scope of the claims. -/
structure WebhookEnvelope where
  event : String
  fromMe : Bool
  remoteJid : String
  key_id : String
  conversation : Option String
  deriving Repr, DecidableEq

/-- The parse result `{phone, text, message_id}` used by the webhook. -/
structure ParsedMessage where
  phone : String
  text : String
  message_id : String
  deriving Repr, DecidableEq

/-- Mirror of `WhatsApp.parse_webhook` on the embedded envelope fragment:
wrong event, own message, empty phone, disallowed phone, or an unsupported
message kind all yield `None`. -/
def parse_webhook (allowed_numbers : List String) (w : WebhookEnvelope) :
    Option ParsedMessage :=
  if w.event ≠ "messages.upsert" then none
  else if w.fromMe then none
  else
    let phone := strReplace w.remoteJid "@s.whatsapp.net" ""
    if phone = "" then none
    else if !is_allowed allowed_numbers phone then none
    else
      match w.conversation with
      | some t => some ⟨phone, t, w.key_id⟩
      | none => none

/-- Observable outcome of one `POST /webhook` request: the returned status
tag, whether the duplicate filter was consulted, whether the workflow engine
was invoked (`workflow.invoke`: the only way the persisted conversation
state can change), whether the busy notice was sent, and the duplicate
store after the request. -/
structure WebhookResult where
  status : String
  dupChecked : Bool
  engineInvoked : Bool
  busyNotified : Bool
  store : DupStore
  deriving DecidableEq

/-- Mirror of the `webhook` handler in `deneme_workflow`: parse, duplicate
check, then dispatch on the checkpoint's outstanding nodes
(`current_state.next`): resume when suspended at one of the two designated
suspension points, report busy otherwise, start fresh when nothing is
outstanding. -/
def webhook (allowed_numbers : List String) (w : WebhookEnvelope)
    (store : DupStore) (now : Nat) (outstanding : List String) : WebhookResult :=
  match parse_webhook allowed_numbers w with
  | none =>
    { status := "ignored", dupChecked := false, engineInvoked := false
      busyNotified := false, store := store }
  | some p =>
    let res := is_duplicate_message store now p.phone p.text (some p.message_id)
    if res.1 then
      { status := "duplicate_ignored", dupChecked := true, engineInvoked := false
        busyNotified := false, store := res.2 }
    else if outstanding ≠ [] then
      if outstanding.contains "wait_user" || outstanding.contains "music_selection_handler" then
        { status := "processed", dupChecked := true, engineInvoked := true
          busyNotified := false, store := res.2 }
      else
        { status := "processing_in_progress", dupChecked := true, engineInvoked := false
          busyNotified := true, store := res.2 }
    else
      { status := "processed", dupChecked := true, engineInvoked := true
        busyNotified := false, store := res.2 }

/-- One item of `sunoData` as consumed by `SunoAPI.wait_and_download`: the
resolved audio url (`""` when every url key is empty), the resolved id, and
whether the HTTP download of the url succeeds. -/
structure AudioFeature where
  audio_id : String
  audio_url : String
  download_ok : Bool
  deriving Repr, DecidableEq

/-- One entry of the `audio_details` list built by `wait_and_download`. -/
structure AudioDetail where
  audio_id : String
  audio_url : String
  downloaded : Bool
  downloaded_file_path : Option String
  deriving Repr, DecidableEq

/-- One observation of the polling loop: the record-info response has no
`data` key, or it carries a `status` (with `sunoData` when present). -/
inductive PollResp where
  | noData
  | withStatus (status : String) (sunoData : List AudioFeature)
  deriving Repr, DecidableEq

/-- Return value of `wait_and_download`. -/
structure WaitResult where
  is_generate : Bool
  data : List AudioDetail := []
  reason : Option String := none
  deriving Repr, DecidableEq

/-- Processing of one `sunoData` item inside the SUCCESS branch: items with
an empty url are skipped; the rest are appended with the download result. -/
def processAudioFeature (download : Bool) (f : AudioFeature) : Option AudioDetail :=
  if f.audio_url = "" then none
  else
    some
      { audio_id := f.audio_id
        audio_url := f.audio_url
        downloaded := download && f.download_ok
        downloaded_file_path :=
          if download && f.download_ok then
            some ("artifacts/musics/" ++ f.audio_id ++ ".mp3")
          else none }

/-- The body of the `while elapsed < max_wait` loop of `wait_and_download`,
run over the list of successive poll observations; the empty list is the
loop falling through to the timeout return. -/
def pollLoop (download : Bool) : List PollResp → WaitResult
  | [] => { is_generate := false, reason := some "timeout" }
  | r :: rest =>
    match r with
    | .noData => pollLoop download rest
    | .withStatus status sunoData =>
      if status = "SUCCESS" then
        if sunoData = [] then { is_generate := false, reason := some "no_audio_data" }
        else
          let audio_details := sunoData.filterMap (processAudioFeature download)
          if audio_details = [] then
            { is_generate := false, reason := some "no_downloadable_audio" }
          else { is_generate := true, data := audio_details }
      else if status = "TEXT_SUCCESS" || status = "FIRST_SUCCESS" then
        pollLoop download rest
      else if status = "FAILED" || status = "ERROR" || status = "CANCELLED" then
        { is_generate := false, reason := some ("status_" ++ status) }
      else pollLoop download rest

/-- Number of iterations of `while elapsed < max_wait` with
`elapsed += poll_interval` each round: the ceiling of
`max_wait / poll_interval`. -/
def numIterations (max_wait poll_interval : Nat) : Nat :=
  (max_wait + poll_interval - 1) / poll_interval

/-- Mirror of `SunoAPI.wait_and_download`: the loop observes one poll
response per iteration (`resp i` for iteration `i`) and runs for at most
`numIterations max_wait poll_interval` iterations. -/
def wait_and_download (resp : Nat → PollResp) (max_wait poll_interval : Nat)
    (download : Bool) : WaitResult :=
  pollLoop download ((List.range (numIterations max_wait poll_interval)).map resp)

/-- How many poll responses `pollLoop` actually examines before returning. -/
def itersUsed : List PollResp → Nat
  | [] => 0
  | r :: rest =>
    match r with
    | .noData => 1 + itersUsed rest
    | .withStatus status _ =>
      if status = "SUCCESS" then 1
      else if status = "TEXT_SUCCESS" || status = "FIRST_SUCCESS" then 1 + itersUsed rest
      else if status = "FAILED" || status = "ERROR" || status = "CANCELLED" then 1
      else 1 + itersUsed rest

/-- Whether some observation in the list is a SUCCESS status carrying at
least one item with a non-empty audio url (the only situation in which
`wait_and_download` can return `is_generate = True`). -/
def hasGoodSuccess (l : List PollResp) : Bool :=
  l.any fun r =>
    match r with
    | .noData => false
    | .withStatus status sunoData =>
      status = "SUCCESS" && sunoData.any fun f => f.audio_url ≠ ""

/-- A point of the compiled graph: the node about to run and the persisted
state (exactly what a checkpoint records). -/
structure Config where
  node : String
  state : UnifiedState
  deriving Repr, DecidableEq

/-- Execute one node: apply its update and move to its routing target. -/
def runStep (r : StepResult) (s : UnifiedState) : Config :=
  ⟨r.goto, applyUpdate s r.update⟩

/-- One transition of the workflow engine.  Each constructor runs the
embedded step function of a node on the current state, with the external
inputs the node consumes (structured LLM decisions constrained to their
pydantic `Literal` ranges, provider outcomes, user resume values) chosen by
the environment. -/
inductive Step : Config → Config → Prop where
  | comm (a : CommAction) (d : String) (s : UnifiedState) :
      Step ⟨"communication_agent", s⟩ (runStep (communication_agent a d s) s)
  | planner (d : TaskPlannerDecision) (s : UnifiedState)
      (hlit : d.tasks.all (fun t => planner_task_literals.contains t) = true) :
      Step ⟨"task_planner", s⟩ (runStep (task_planner d s) s)
  | musicGen (style title : String) (api : MusicApiOutcome) (s : UnifiedState) :
      Step ⟨"music_generator", s⟩ (runStep (music_generator style title api s) s)
  | coverGen (cover_id cover_prompt_text : String) (api : CoverApiOutcome)
      (s : UnifiedState) :
      Step ⟨"cover_generator", s⟩
        (runStep (cover_generator cover_id cover_prompt_text api s) s)
  | videoGen (output_name : String) (ff : FfmpegOutcome) (s : UnifiedState) :
      Step ⟨"video_generator", s⟩ (runStep (video_generator output_name ff s) s)
  | selPrompt (s : UnifiedState) :
      Step ⟨"music_selection_prompt", s⟩ (runStep (music_selection_prompt s) s)
  | selHandler (v : String) (s : UnifiedState) (r : StepResult)
      (h : music_selection_handler v s = some r) :
      Step ⟨"music_selection_handler", s⟩ (runStep r s)
  | delivery (s : UnifiedState) :
      Step ⟨"delivery_agent", s⟩ (runStep (delivery_agent s) s)
  | waitUser (v : String) (s : UnifiedState) :
      Step ⟨"wait_user", s⟩ (runStep (wait_user v s) s)

/-- Configurations reachable by the engine for a conversation opened by the
first inbound message `initial_message` from `phone`: execution starts at
the fixed entry point `communication_agent` on the initial state. -/
def ReachableFrom (phone initial_message : String) (c : Config) : Prop :=
  Relation.ReflTransGen Step
    ⟨"communication_agent", create_initial_state phone initial_message⟩ c

/-- C1: when the music-generation step is entered with the retry count
already at the cap (2), the step itself force-terminates the plan with no
further inbound event: it sends the apology to the user, empties
`task_queue`, resets `retry_count` to 0, returns the stage to `idle`, makes
no generation attempt, and routes to `wait_user`, an interrupt point where
execution halts awaiting new user input. -/
theorem C1_retry_cap_forces_termination
    (params_style params_title : String) (api : MusicApiOutcome)
    (s : UnifiedState) (hcap : 2 ≤ s.retry_count) :
    (music_generator params_style params_title api s).outbound = [apology_message] ∧
    (music_generator params_style params_title api s).providerInvoked = false ∧
    (music_generator params_style params_title api s).goto = "wait_user" ∧
    "wait_user" ∈ interrupt_before_nodes ∧
    (applyUpdate s (music_generator params_style params_title api s).update).task_queue = [] ∧
    (applyUpdate s (music_generator params_style params_title api s).update).retry_count = 0 ∧
    (applyUpdate s (music_generator params_style params_title api s).update).current_stage = "idle" := by
  simp [music_generator, applyUpdate, hcap, interrupt_before_nodes]

/-- Witness for C1 at a concrete state with `retry_count = 2`. -/
theorem C1_retry_cap_forces_termination_witness :
    2 ≤ ({ create_initial_state "905551112233" "bir sarki yap" with retry_count := 2 } : UnifiedState).retry_count ∧
    ((music_generator "pop" "Rain" (.failed none)
        { create_initial_state "905551112233" "bir sarki yap" with retry_count := 2 }).outbound
      = [apology_message] ∧
     (music_generator "pop" "Rain" (.failed none)
        { create_initial_state "905551112233" "bir sarki yap" with retry_count := 2 }).providerInvoked = false ∧
     (music_generator "pop" "Rain" (.failed none)
        { create_initial_state "905551112233" "bir sarki yap" with retry_count := 2 }).goto = "wait_user" ∧
     "wait_user" ∈ interrupt_before_nodes ∧
     (applyUpdate { create_initial_state "905551112233" "bir sarki yap" with retry_count := 2 }
        (music_generator "pop" "Rain" (.failed none)
          { create_initial_state "905551112233" "bir sarki yap" with retry_count := 2 }).update).task_queue = [] ∧
     (applyUpdate { create_initial_state "905551112233" "bir sarki yap" with retry_count := 2 }
        (music_generator "pop" "Rain" (.failed none)
          { create_initial_state "905551112233" "bir sarki yap" with retry_count := 2 }).update).retry_count = 0 ∧
     (applyUpdate { create_initial_state "905551112233" "bir sarki yap" with retry_count := 2 }
        (music_generator "pop" "Rain" (.failed none)
          { create_initial_state "905551112233" "bir sarki yap" with retry_count := 2 }).update).current_stage = "idle") :=
  ⟨by decide, C1_retry_cap_forces_termination "pop" "Rain" (.failed none) _ (by decide)⟩

/-- State used by the C2 counterexample: a fresh conversation with
`retry_count = 0`. -/
def c2_state : UnifiedState := create_initial_state "905551112233" "kapak yap"

/-- C2 counterexample: the cover step fails with a transient provider error
(`generate_image` raises), the error is recorded, yet `retry_count` stays 0
instead of being incremented to 1 — the update dict of the failure branch of
`cover_generator` carries no `retry_count` key at all. -/
theorem C2_counterexample :
    c2_state.retry_count = 0 ∧
    (cover_generator "cid" "minimal cover" (.failed "image api down") c2_state).update.retry_count = none ∧
    (applyUpdate c2_state
      (cover_generator "cid" "minimal cover" (.failed "image api down") c2_state).update).error_message
      = some "image api down" ∧
    (applyUpdate c2_state
      (cover_generator "cid" "minimal cover" (.failed "image api down") c2_state).update).last_error_stage
      = some "cover_generator" ∧
    (applyUpdate c2_state
      (cover_generator "cid" "minimal cover" (.failed "image api down") c2_state).update).retry_count = 0 := by
  decide

/-- C2 (amended): only the music-generation step maintains the retry
ledger — below the cap it records the error and increments `retry_count` on
a transient failure and resets `retry_count` to 0 on success; the cover and
video steps record their error in `error_message`/`last_error_stage` but
never touch `retry_count` (their updates carry no `retry_count` key in any
outcome). -/
theorem C2_retry_ledger (s : UnifiedState) (hcap : s.retry_count < 2) :
    (∀ st ti err,
      (applyUpdate s (music_generator st ti (.failed err) s).update).retry_count
        = s.retry_count + 1 ∧
      (applyUpdate s (music_generator st ti (.failed err) s).update).error_message
        = some (err.getD "Müzik üretilemedi") ∧
      (applyUpdate s (music_generator st ti (.failed err) s).update).last_error_stage
        = some "music_generator") ∧
    (∀ st ti ids urls adr, truthyPaths adr ≠ [] →
      (applyUpdate s (music_generator st ti (.generated ids urls adr) s).update).retry_count = 0) ∧
    (∀ cid cp api, (cover_generator cid cp api s).update.retry_count = none) ∧
    (∀ nm ff, (video_generator nm ff s).update.retry_count = none) := by
  have hnotcap : ¬ s.retry_count ≥ 2 := Nat.not_le.mpr hcap
  refine ⟨?_, ?_, ?_, ?_⟩
  · intro st ti err
    simp [music_generator, applyUpdate, hnotcap]
  · intro st ti ids urls adr hne
    simp [music_generator, applyUpdate, hnotcap, hne]
  · intro cid cp api
    cases api <;> rfl
  · intro nm ff
    unfold video_generator
    split
    · rfl
    · cases ff <;> rfl

/-- Witness for C2 (amended) at a concrete fresh state. -/
theorem C2_retry_ledger_witness :
    c2_state.retry_count < 2 ∧
    (applyUpdate c2_state (music_generator "a" "b" (.failed (some "x")) c2_state).update).retry_count
      = c2_state.retry_count + 1 ∧
    truthyPaths [some "p.mp3"] ≠ [] ∧
    (applyUpdate c2_state
      (music_generator "a" "b" (.generated ["i"] ["u"] [some "p.mp3"]) c2_state).update).retry_count = 0 ∧
    (cover_generator "c" "p" (.failed "e") c2_state).update.retry_count = none ∧
    (video_generator "v.mp4" .ok c2_state).update.retry_count = none := by
  have h := C2_retry_ledger c2_state (by decide)
  exact ⟨by decide, (h.1 "a" "b" (some "x")).1, by decide,
    h.2.1 "a" "b" ["i"] ["u"] [some "p.mp3"] (by decide),
    h.2.2.1 "c" "p" (.failed "e"), h.2.2.2 "v.mp4" .ok⟩

/-- The disjointness invariant of the spec: no task tag is simultaneously in
`task_queue` and in `completed_tasks`. -/
def queueDisjoint (s : UnifiedState) : Prop :=
  ∀ t ∈ s.task_queue, t ∉ s.completed_tasks

instance (s : UnifiedState) : Decidable (queueDisjoint s) :=
  List.decidableBAll _ s.task_queue

/-- C3 (amended): the pop-into-completed transitions of the generation
steps preserve queue/completed disjointness — unconditionally for cover and
video (they remove every occurrence of their tag from the queue), and for
music provided the `music` tag does not also occur in the tail of the queue.
Re-planning does NOT preserve it (see the counterexample): `task_planner`
overwrites `task_queue` with the newly planned list without excluding
already-completed tags. -/
theorem C3_generation_steps_preserve_disjointness (s : UnifiedState)
    (hd : queueDisjoint s) :
    (∀ cid cp api, queueDisjoint (applyUpdate s (cover_generator cid cp api s).update)) ∧
    (∀ nm ff, queueDisjoint (applyUpdate s (video_generator nm ff s).update)) ∧
    (∀ st ti api, "music" ∉ s.task_queue.tail →
      queueDisjoint (applyUpdate s (music_generator st ti api s).update)) := by
  refine ⟨?_, ?_, ?_⟩
  · intro cid cp api
    cases api with
    | generated path =>
      intro t ht htc
      simp [cover_generator, applyUpdate, List.mem_filter] at ht htc
      rcases htc with h | h
      · exact hd t ht.1 h
      · exact ht.2 h
    | failed e =>
      intro t ht htc
      simp [cover_generator, applyUpdate] at ht htc
      exact hd t ht htc
  · intro nm ff
    unfold video_generator
    split
    · intro t ht htc
      simp [applyUpdate] at ht htc
      exact hd t ht htc
    · cases ff with
      | ok =>
        intro t ht htc
        simp [applyUpdate, List.mem_filter] at ht htc
        rcases htc with h | h
        · exact hd t ht.1 h
        · exact ht.2 h
      | failed e =>
        intro t ht htc
        simp [applyUpdate] at ht htc
        exact hd t ht htc
  · intro st ti api hm
    by_cases hcap : s.retry_count ≥ 2
    · intro t ht
      simp [music_generator, applyUpdate, hcap] at ht
    · cases api with
      | generated ids urls adr =>
        by_cases hp : truthyPaths adr = []
        · intro t ht htc
          simp [music_generator, applyUpdate, hcap, hp] at ht htc
          exact hd t ht htc
        · intro t ht htc
          simp [music_generator, applyUpdate, hcap, hp] at ht htc
          rcases htc with h | h
          · exact hd t (List.mem_of_mem_tail ht) h
          · exact hm (h ▸ ht)
      | failed err =>
        intro t ht htc
        simp [music_generator, applyUpdate, hcap] at ht htc
        exact hd t ht htc

/-- Witness for C3 (amended) at a concrete disjoint state. -/
theorem C3_generation_steps_preserve_disjointness_witness :
    queueDisjoint { create_initial_state "905" "m" with
      task_queue := ["music", "cover"], completed_tasks := [] } ∧
    ("music" ∉ ({ create_initial_state "905" "m" with
      task_queue := ["music", "cover"], completed_tasks := [] } : UnifiedState).task_queue.tail) ∧
    queueDisjoint (applyUpdate
      { create_initial_state "905" "m" with task_queue := ["music", "cover"], completed_tasks := [] }
      (music_generator "pop" "Rain" (.generated ["i"] ["u"] [some "p.mp3"])
        { create_initial_state "905" "m" with
          task_queue := ["music", "cover"], completed_tasks := [] }).update) := by
  refine ⟨by decide, by decide, ?_⟩
  exact (C3_generation_steps_preserve_disjointness _ (by decide)).2.2 "pop" "Rain"
    (.generated ["i"] ["u"] [some "p.mp3"]) (by decide)

/-- Conversation used by the C3 counterexample run. -/
def cex_phone : String := "905551112233"

/-- First inbound message of the C3 counterexample run. -/
def cex_msg : String := "bana yagmur hakkinda bir sarki yap"

/-- Planner decision of the C3 counterexample run: plan just a music task. -/
def cex_plan : TaskPlannerDecision :=
  ⟨["music"], some "yagmur temali pop sarkisi", none, none, "Hemen basliyorum"⟩

/-- Successful provider outcome of the C3 counterexample run. -/
def cex_api : MusicApiOutcome :=
  .generated ["id1", "id2"] ["u1", "u2"]
    [some "artifacts/musics/id1.mp3", some "artifacts/musics/id2.mp3"]

/-- Configurations of the C3 counterexample run. -/
def cex_c0 : Config := ⟨"communication_agent", create_initial_state cex_phone cex_msg⟩

/-- After the communication agent routes to the planner. -/
def cex_c1 : Config := runStep (communication_agent .task_planner "plan" cex_c0.state) cex_c0.state

/-- After the planner enqueues `["music"]`. -/
def cex_c2 : Config := runStep (task_planner cex_plan cex_c1.state) cex_c1.state

/-- After the music generator succeeds: `music` moves to `completed_tasks`. -/
def cex_c3 : Config := runStep (music_generator "rain pop" "Rain" cex_api cex_c2.state) cex_c2.state

/-- After the selection prompt. -/
def cex_c4 : Config := runStep (music_selection_prompt cex_c3.state) cex_c3.state

/-- Handler result for the reply `1`. -/
def cex_sel : StepResult :=
  (music_selection_handler "1" cex_c4.state).getD { update := {}, goto := "" }

/-- After the user picks the first candidate. -/
def cex_c5 : Config := runStep cex_sel cex_c4.state

/-- After delivery. -/
def cex_c6 : Config := runStep (delivery_agent cex_c5.state) cex_c5.state

/-- After the user asks for one more song. -/
def cex_c7 : Config := runStep (wait_user "bir sarki daha yap" cex_c6.state) cex_c6.state

/-- After the communication agent routes to the planner again. -/
def cex_c8 : Config := runStep (communication_agent .task_planner "tekrar plan" cex_c7.state) cex_c7.state

/-- After re-planning `["music"]`: the tag is now in both lists. -/
def cex_c9 : Config := runStep (task_planner cex_plan cex_c8.state) cex_c8.state

/-- C3 counterexample: a conversation state reachable by the engine (plan a
song, generate it successfully, select it, deliver it, then ask for another
song) in which the tag `music` sits in `task_queue` and `completed_tasks`
simultaneously — re-planning via `task_planner` does not preserve the
disjointness invariant, because it never clears or filters
`completed_tasks`. -/
theorem C3_counterexample :
    ∃ (phone msg : String) (c : Config), ReachableFrom phone msg c ∧
      "music" ∈ c.state.task_queue ∧ "music" ∈ c.state.completed_tasks := by
  refine ⟨cex_phone, cex_msg, cex_c9, ?_, by decide, by decide⟩
  have h01 : Step cex_c0 cex_c1 := Step.comm .task_planner "plan" cex_c0.state
  have h12 : Step cex_c1 cex_c2 := Step.planner cex_plan cex_c1.state (by decide)
  have h23 : Step cex_c2 cex_c3 := Step.musicGen "rain pop" "Rain" cex_api cex_c2.state
  have h34 : Step cex_c3 cex_c4 := Step.selPrompt cex_c3.state
  have h45 : Step cex_c4 cex_c5 := Step.selHandler "1" cex_c4.state cex_sel (by decide)
  have h56 : Step cex_c5 cex_c6 := Step.delivery cex_c5.state
  have h67 : Step cex_c6 cex_c7 := Step.waitUser "bir sarki daha yap" cex_c6.state
  have h78 : Step cex_c7 cex_c8 := Step.comm .task_planner "tekrar plan" cex_c7.state
  have h89 : Step cex_c8 cex_c9 := Step.planner cex_plan cex_c8.state (by decide)
  exact .head h01 (.head h12 (.head h23 (.head h34 (.head h45
    (.head h56 (.head h67 (.head h78 (.single h89))))))))

/-- After recording a processed event, the identity's retained record is
exactly that event's record (dict assignment overwrites). -/
theorem lookupStore_setStore (st : DupStore) (phone : String) (r : DupRecord) :
    lookupStore (setStore st phone r) phone = some r := by
  unfold lookupStore setStore
  induction st with
  | nil => simp [List.find?]
  | cons p rest ih =>
    by_cases h : p.1 = phone
    · simp only [List.filter_cons, h]
      simp
    · simp only [List.filter_cons, h]
      simp [List.find?_cons, h]

/-- C4 counterexample: the store keeps only one record per identity, so an
intervening different message defeats the window — the identity sends `x`
at t=0, `y` at t=5, and `x` again at t=10: all three events are processed,
although the third repeats the first's content only 10 (< 30) seconds
later, contradicting the claimed iff and its no-false-negatives-within-the-
window guarantee. -/
theorem C4_counterexample :
    (is_duplicate_message [] 0 "905551112233" "x" (some "A")).1 = false ∧
    (is_duplicate_message (is_duplicate_message [] 0 "905551112233" "x" (some "A")).2
      5 "905551112233" "y" (some "B")).1 = false ∧
    (10 : Nat) - 0 < 30 ∧
    (is_duplicate_message
      (is_duplicate_message (is_duplicate_message [] 0 "905551112233" "x" (some "A")).2
        5 "905551112233" "y" (some "B")).2
      10 "905551112233" "x" (some "C")).1 = false := by
  decide

/-- C4 (amended): the duplicate check purges records older than 30 seconds
first and retains at most one record per identity — every processed
(non-duplicate) event overwrites it.  An event is then classified as a
duplicate exactly when that retained record matches on a present
`message_id` or on the content fingerprint seen less than 30 seconds
earlier.  Consequently, starting from an empty store, a first message is
processed, an identical message 31 seconds later is processed again
(window expiry), and an immediate identical resend inside the 30-second
window is a duplicate — but identical content resent within the window
after an intervening different message is processed again (see the
counterexample). -/
theorem C4_duplicate_filter :
    (∀ (store : DupStore) (now : Nat) (phone text : String) (mid : Option String),
      ((is_duplicate_message store now phone text mid).1 = true ↔
        ∃ prev, lookupStore (purgeStore store now) phone = some prev ∧
          ((pyTruthyId mid = true ∧ prev.message_id = mid) ∨
           (prev.hash = get_message_hash phone text ∧ now - prev.timestamp < 30)))) ∧
    (∀ (phone text : String) (mid : Option String) (t : Nat),
      (is_duplicate_message [] t phone text mid).1 = false) ∧
    (∀ (phone text : String) (mid : Option String) (t : Nat),
      (is_duplicate_message ((is_duplicate_message [] t phone text mid).2)
        (t + 31) phone text mid).1 = false) ∧
    (∀ (phone text : String) (mid : Option String) (t : Nat),
      (is_duplicate_message ((is_duplicate_message [] t phone text mid).2)
        (t + 10) phone text mid).1 = true) ∧
    (∀ (store : DupStore) (now : Nat) (phone text : String) (mid : Option String),
      (is_duplicate_message store now phone text mid).1 = false →
      lookupStore (is_duplicate_message store now phone text mid).2 phone =
        some ⟨mid, get_message_hash phone text, now⟩) := by
  refine ⟨?_, ?_, ?_, ?_, ?_⟩
  · intro store now phone text mid
    unfold is_duplicate_message
    cases hl : lookupStore (purgeStore store now) phone with
    | none => simp [hl]
    | some prev =>
      simp only [hl]
      split_ifs with hb1 hb2
      · have h1 : pyTruthyId mid = true ∧ prev.message_id = mid := by simpa using hb1
        constructor
        · intro _
          exact ⟨prev, rfl, Or.inl h1⟩
        · intro _
          rfl
      · have h2 : prev.hash = get_message_hash phone text ∧ now - prev.timestamp < 30 := by
          simpa using hb2
        constructor
        · intro _
          exact ⟨prev, rfl, Or.inr h2⟩
        · intro _
          rfl
      · have h1 : ¬ (pyTruthyId mid = true ∧ prev.message_id = mid) := by simpa using hb1
        have h2 : ¬ (prev.hash = get_message_hash phone text ∧ now - prev.timestamp < 30) := by
          simpa using hb2
        constructor
        · intro hfalse
          simp at hfalse
        · rintro ⟨prev', hprev', hcase⟩
          cases hprev'
          rcases hcase with h | h
          · exact absurd h h1
          · exact absurd h h2
  · intro phone text mid t
    simp [is_duplicate_message, purgeStore, lookupStore]
  · intro phone text mid t
    simp [is_duplicate_message, purgeStore, lookupStore, setStore, List.find?]
  · intro phone text mid t
    simp only [is_duplicate_message, purgeStore, lookupStore, setStore, List.find?]
    simp [get_message_hash]
  · intro store now phone text mid
    simp only [is_duplicate_message]
    cases hl : lookupStore (purgeStore store now) phone with
    | none =>
      intro _
      exact lookupStore_setStore _ _ _
    | some prev =>
      simp only [hl]
      split_ifs with hb1 hb2
      · intro hfalse
        simp at hfalse
      · intro hfalse
        simp at hfalse
      · intro _
        exact lookupStore_setStore _ _ _

/-- Witness for the recording conjunct of C4 (amended): a processed event
overwrites the identity's retained record. -/
theorem C4_duplicate_filter_witness :
    (is_duplicate_message [] 0 "905551112233" "x" (some "A")).1 = false ∧
    lookupStore (is_duplicate_message [] 0 "905551112233" "x" (some "A")).2 "905551112233" =
      some ⟨some "A", get_message_hash "905551112233" "x", 0⟩ :=
  ⟨by decide,
   C4_duplicate_filter.2.2.2.2 [] 0 "905551112233" "x" (some "A") (by decide)⟩

/-- C5: when a non-duplicate event arrives for a conversation whose
workflow is outstanding at a node that is neither `wait_user` nor
`music_selection_handler`, the webhook does not consume the event into the
graph: it does not invoke the engine (so the persisted conversation state
is untouched), notifies the user the job is still running, and returns the
`processing_in_progress` status. -/
theorem C5_busy_event_not_consumed (allowed : List String) (w : WebhookEnvelope)
    (store : DupStore) (now : Nat) (outstanding : List String) (p : ParsedMessage)
    (hp : parse_webhook allowed w = some p)
    (hnd : (is_duplicate_message store now p.phone p.text (some p.message_id)).1 = false)
    (hne : outstanding ≠ [])
    (hw : outstanding.contains "wait_user" = false)
    (hm : outstanding.contains "music_selection_handler" = false) :
    (webhook allowed w store now outstanding).status = "processing_in_progress" ∧
    (webhook allowed w store now outstanding).engineInvoked = false ∧
    (webhook allowed w store now outstanding).busyNotified = true := by
  have hw' : "wait_user" ∉ outstanding := by simpa using hw
  have hm' : "music_selection_handler" ∉ outstanding := by simpa using hm
  simp [webhook, hp, hnd, hne, hw', hm']

/-- Envelope used by the C5 witness. -/
def c5_envelope : WebhookEnvelope :=
  ⟨"messages.upsert", false, "905551112233@s.whatsapp.net", "MSGID1", some "merhaba"⟩

/-- Witness for C5: a text message arriving while the workflow is busy in
`music_generator`. -/
theorem C5_busy_event_not_consumed_witness :
    parse_webhook [] c5_envelope = some ⟨"905551112233", "merhaba", "MSGID1"⟩ ∧
    (is_duplicate_message [] 0 "905551112233" "merhaba" (some "MSGID1")).1 = false ∧
    (["music_generator"] : List String) ≠ [] ∧
    (["music_generator"] : List String).contains "wait_user" = false ∧
    (["music_generator"] : List String).contains "music_selection_handler" = false ∧
    ((webhook [] c5_envelope [] 0 ["music_generator"]).status = "processing_in_progress" ∧
     (webhook [] c5_envelope [] 0 ["music_generator"]).engineInvoked = false ∧
     (webhook [] c5_envelope [] 0 ["music_generator"]).busyNotified = true) :=
  ⟨by decide, by decide, by decide, by decide, by decide,
    C5_busy_event_not_consumed [] c5_envelope [] 0 ["music_generator"]
      ⟨"905551112233", "merhaba", "MSGID1"⟩ (by decide) (by decide) (by decide)
      (by decide) (by decide)⟩

/-- C10: the allow-list check accepts every identity when the configured
list is empty and otherwise accepts exactly the identities whose
normalization (dropping `+`, spaces and the `@s.whatsapp.net` marker) is in
the list; an event from a disallowed identity parses to `None`, so the
webhook answers `ignored` without consulting the duplicate filter or
invoking the engine. -/
theorem C10_allow_list (allowed : List String) (phone : String) (w : WebhookEnvelope)
    (store : DupStore) (now : Nat) (outstanding : List String) :
    is_allowed [] phone = true ∧
    (allowed ≠ [] → (is_allowed allowed phone = true ↔ clean_phone phone ∈ allowed)) ∧
    (is_allowed allowed (strReplace w.remoteJid "@s.whatsapp.net" "") = false →
      parse_webhook allowed w = none) ∧
    (parse_webhook allowed w = none →
      (webhook allowed w store now outstanding).status = "ignored" ∧
      (webhook allowed w store now outstanding).dupChecked = false ∧
      (webhook allowed w store now outstanding).engineInvoked = false ∧
      (webhook allowed w store now outstanding).store = store) := by
  refine ⟨by simp [is_allowed], ?_, ?_, ?_⟩
  · intro hne
    simp [is_allowed, hne]
  · intro hna
    simp [parse_webhook, hna, ite_self]
  · intro hnone
    simp [webhook, hnone]

/-- Envelope used by the C10 witness: sender not in the allow-list. -/
def c10_envelope : WebhookEnvelope :=
  ⟨"messages.upsert", false, "+90 444 1111@s.whatsapp.net", "MSGID2", some "selam"⟩

/-- Witness for C10 with the one-entry allow-list `["905551112233"]`. -/
theorem C10_allow_list_witness :
    (["905551112233"] : List String) ≠ [] ∧
    is_allowed ["905551112233"] (strReplace c10_envelope.remoteJid "@s.whatsapp.net" "") = false ∧
    parse_webhook ["905551112233"] c10_envelope = none ∧
    (is_allowed [] "+90 444 1111" = true ∧
     (is_allowed ["905551112233"] "+90 555 111 22 33" = true ↔
       clean_phone "+90 555 111 22 33" ∈ ["905551112233"]) ∧
     ((webhook ["905551112233"] c10_envelope [] 0 []).status = "ignored" ∧
      (webhook ["905551112233"] c10_envelope [] 0 []).dupChecked = false ∧
      (webhook ["905551112233"] c10_envelope [] 0 []).engineInvoked = false ∧
      (webhook ["905551112233"] c10_envelope [] 0 []).store = [])) := by
  have h1 := C10_allow_list ["905551112233"] "+90 444 1111" c10_envelope [] 0 []
  have h2 := C10_allow_list ["905551112233"] "+90 555 111 22 33" c10_envelope [] 0 []
  refine ⟨by decide, by decide, h1.2.2.1 (by decide), ?_, h2.2.1 (by decide),
    h1.2.2.2 (h1.2.2.1 (by decide))⟩
  exact (C10_allow_list [] "+90 444 1111" c10_envelope [] 0 []).1

/-- State used by the C6 counterexample: fresh conversation, no music
artifact generated or selected. -/
def c6_state : UnifiedState := create_initial_state "905551112233" "sadece kapak yap"

/-- C6 counterexample: the cover step is invoked with no music artifact at
all (nothing generated, nothing selected), yet it does not reject — it
proceeds straight to the image-generation call and completes the cover,
recording no error. -/
theorem C6_counterexample :
    c6_state.is_music_generated = false ∧
    c6_state.is_music_selected = false ∧
    c6_state.selected_audio_file_path = none ∧
    (cover_generator "cid" "minimal cover"
      (.generated "artifacts/generated_images/cid.png") c6_state).providerInvoked = true ∧
    (cover_generator "cid" "minimal cover"
      (.generated "artifacts/generated_images/cid.png") c6_state).update.error_message = none ∧
    (applyUpdate c6_state (cover_generator "cid" "minimal cover"
      (.generated "artifacts/generated_images/cid.png") c6_state).update).is_cover_generated = true := by
  decide

/-- C6 (amended): the video step does reject when a prerequisite artifact
path is missing or empty — it records the descriptive error
`Video için eksik dosya`, makes no generation attempt, performs no retry
(the update carries no `retry_count` key), and routes back to the
communication agent; the cover step, by contrast, performs no prerequisite
check and invokes the image-generation provider on every input state. -/
theorem C6_precondition_checks :
    (∀ (s : UnifiedState) (nm : String) (ff : FfmpegOutcome),
      pyTruthyStr s.cover_image_path = false ∨ pyTruthyStr s.selected_audio_file_path = false →
      (video_generator nm ff s).providerInvoked = false ∧
      (video_generator nm ff s).update.error_message = some (some "Video için eksik dosya") ∧
      (video_generator nm ff s).update.retry_count = none ∧
      (video_generator nm ff s).update.is_video_generated = none ∧
      (video_generator nm ff s).goto = "communication_agent") ∧
    (∀ (s : UnifiedState) (cid cp : String) (api : CoverApiOutcome),
      (cover_generator cid cp api s).providerInvoked = true) := by
  constructor
  · intro s nm ff hmiss
    have hcond : (!pyTruthyStr s.cover_image_path || !pyTruthyStr s.selected_audio_file_path) = true := by
      rcases hmiss with h | h <;> simp [h]
    simp [video_generator, hcond]
  · intro s cid cp api
    cases api <;> rfl

/-- Witness for C6 (amended) at the fresh state (both paths missing). -/
theorem C6_precondition_checks_witness :
    (pyTruthyStr c6_state.cover_image_path = false ∨
     pyTruthyStr c6_state.selected_audio_file_path = false) ∧
    ((video_generator "v.mp4" .ok c6_state).providerInvoked = false ∧
     (video_generator "v.mp4" .ok c6_state).update.error_message = some (some "Video için eksik dosya") ∧
     (video_generator "v.mp4" .ok c6_state).update.retry_count = none ∧
     (video_generator "v.mp4" .ok c6_state).update.is_video_generated = none ∧
     (video_generator "v.mp4" .ok c6_state).goto = "communication_agent") ∧
    (cover_generator "cid" "p" (.failed "e") c6_state).providerInvoked = true :=
  ⟨Or.inl (by decide),
   C6_precondition_checks.1 c6_state "v.mp4" .ok (Or.inl (by decide)),
   C6_precondition_checks.2 c6_state "cid" "p" (.failed "e")⟩

/-- C7: resuming the media-selection point with the reply `2`, with at
least two candidates in each generated list, selects candidate index 1:
the selected id/url/path are exactly the entries of the candidate lists at
index 1 (hence referentially members of those lists), the music is marked
selected, and the stage/routing advance to `generating_cover`/
`cover_generator` when `cover` is queued and to `delivering`/
`delivery_agent` otherwise. -/
theorem C7_select_second_candidate (s : UnifiedState)
    (hids : 2 ≤ s.generated_audio_ids.length)
    (hurls : 2 ≤ s.generated_audio_urls.length)
    (hpaths : 2 ≤ s.generated_audio_file_paths.length) :
    ∃ (r : StepResult) (id url path : String),
      music_selection_handler "2" s = some r ∧
      s.generated_audio_ids.get? 1 = some id ∧ id ∈ s.generated_audio_ids ∧
      s.generated_audio_urls.get? 1 = some url ∧ url ∈ s.generated_audio_urls ∧
      s.generated_audio_file_paths.get? 1 = some path ∧ path ∈ s.generated_audio_file_paths ∧
      r.update.selected_audio_index = some (some 1) ∧
      r.update.selected_audio_id = some (some id) ∧
      r.update.selected_audio_url = some (some url) ∧
      r.update.selected_audio_file_path = some (some path) ∧
      r.update.is_music_selected = some true ∧
      (s.task_queue.contains "cover" = true →
        r.update.current_stage = some "generating_cover" ∧ r.goto = "cover_generator") ∧
      (s.task_queue.contains "cover" = false →
        r.update.current_stage = some "delivering" ∧ r.goto = "delivery_agent") := by
  have hi : 1 < s.generated_audio_ids.length := by omega
  have hu : 1 < s.generated_audio_urls.length := by omega
  have hp : 1 < s.generated_audio_file_paths.length := by omega
  have hidg : s.generated_audio_ids.get? 1 = some (s.generated_audio_ids.get ⟨1, hi⟩) :=
    List.get?_eq_get hi
  have hurlg : s.generated_audio_urls.get? 1 = some (s.generated_audio_urls.get ⟨1, hu⟩) :=
    List.get?_eq_get hu
  have hpathg : s.generated_audio_file_paths.get? 1 =
      some (s.generated_audio_file_paths.get ⟨1, hp⟩) :=
    List.get?_eq_get hp
  have hine : s.generated_audio_ids ≠ [] := by
    intro h
    rw [h] at hi
    simp at hi
  have hune : s.generated_audio_urls ≠ [] := by
    intro h
    rw [h] at hu
    simp at hu
  have hpne : s.generated_audio_file_paths ≠ [] := by
    intro h
    rw [h] at hp
    simp at hp
  have hsel : music_selection_handler "2" s =
      applySelection "2" "System: İkinci müzik seçildi" 1 s := by
    rfl
  rw [hsel]
  unfold applySelection
  rw [show pyIndex s.generated_audio_ids 1 = some (some (s.generated_audio_ids.get ⟨1, hi⟩)) by
        simp [pyIndex, hine, hidg],
      show pyIndex s.generated_audio_urls 1 = some (some (s.generated_audio_urls.get ⟨1, hu⟩)) by
        simp [pyIndex, hune, hurlg],
      show pyIndex s.generated_audio_file_paths 1 =
          some (some (s.generated_audio_file_paths.get ⟨1, hp⟩)) by
        simp [pyIndex, hpne, hpathg]]
  refine ⟨_, _, _, _, rfl, hidg, List.get_mem _ _ _, hurlg, List.get_mem _ _ _,
    hpathg, List.get_mem _ _ _, rfl, rfl, rfl, rfl, rfl, ?_, ?_⟩
  · intro hc
    have hmem : "cover" ∈ s.task_queue := by simpa using hc
    simp [hmem]
  · intro hc
    have hmem : "cover" ∉ s.task_queue := by simpa using hc
    simp [hmem]

/-- State used by the C7 witness: two candidates, `cover` still queued. -/
def c7_state : UnifiedState :=
  { create_initial_state "905551112233" "sarki" with
    generated_audio_ids := ["id1", "id2"]
    generated_audio_urls := ["u1", "u2"]
    generated_audio_file_paths := ["p1.mp3", "p2.mp3"]
    task_queue := ["cover"]
    is_music_generated := true }

/-- Witness for C7 at a concrete two-candidate state. -/
theorem C7_select_second_candidate_witness :
    2 ≤ c7_state.generated_audio_ids.length ∧
    2 ≤ c7_state.generated_audio_urls.length ∧
    2 ≤ c7_state.generated_audio_file_paths.length ∧
    (∃ (r : StepResult) (id url path : String),
      music_selection_handler "2" c7_state = some r ∧
      c7_state.generated_audio_ids.get? 1 = some id ∧ id ∈ c7_state.generated_audio_ids ∧
      c7_state.generated_audio_urls.get? 1 = some url ∧ url ∈ c7_state.generated_audio_urls ∧
      c7_state.generated_audio_file_paths.get? 1 = some path ∧
      path ∈ c7_state.generated_audio_file_paths ∧
      r.update.selected_audio_index = some (some 1) ∧
      r.update.selected_audio_id = some (some id) ∧
      r.update.selected_audio_url = some (some url) ∧
      r.update.selected_audio_file_path = some (some path) ∧
      r.update.is_music_selected = some true ∧
      (c7_state.task_queue.contains "cover" = true →
        r.update.current_stage = some "generating_cover" ∧ r.goto = "cover_generator") ∧
      (c7_state.task_queue.contains "cover" = false →
        r.update.current_stage = some "delivering" ∧ r.goto = "delivery_agent")) :=
  ⟨by decide, by decide, by decide,
   C7_select_second_candidate c7_state (by decide) (by decide) (by decide)⟩

/-- The recognized selection forms of `music_selection_handler`: variants
of `1`, of `2`, the both-keywords, and the neither/regenerate keywords. -/
def recognized_selection (resp : String) : Bool :=
  selection_one_words.contains resp || selection_two_words.contains resp ||
  strContains resp "ikisi" || strContains resp "her iki" ||
  strContains resp "hiçbiri" || strContains resp "yeniden" || strContains resp "tekrar"

/-- C8: a resume value matching none of the recognized selection forms is
treated as remake feedback: `is_remake_requested` is set, the raw reply is
stored as `remake_instructions`, the stage becomes `generating_music`, the
handler routes back to `music_generator`, and the selection fields are not
set by the update. -/
theorem C8_unrecognized_reply_is_remake_feedback (s : UnifiedState) (v : String)
    (h : recognized_selection (pyLowerStrip v) = false) :
    ∃ r : StepResult,
      music_selection_handler v s = some r ∧
      r.update.is_remake_requested = some true ∧
      r.update.remake_instructions = some (some v) ∧
      r.update.current_stage = some "generating_music" ∧
      r.goto = "music_generator" ∧
      r.update.selected_audio_index = none ∧
      r.update.selected_audio_id = none ∧
      r.update.selected_audio_url = none ∧
      r.update.selected_audio_file_path = none ∧
      r.update.is_music_selected = none := by
  simp only [recognized_selection, Bool.or_eq_false_iff] at h
  obtain ⟨⟨⟨⟨⟨⟨h1, h2⟩, h3⟩, h4⟩, h5⟩, h6⟩, h7⟩ := h
  have hres : music_selection_handler v s = some
      { update :=
          { messages := ["User: " ++ v,
              "System: Geri bildirime göre yeniden üretilecek: " ++ v]
            is_remake_requested := some true
            remake_instructions := some (some v)
            current_stage := some "generating_music" }
        goto := "music_generator" } := by
    have h1' : pyLowerStrip v ∉ selection_one_words := by simpa using h1
    have h2' : pyLowerStrip v ∉ selection_two_words := by simpa using h2
    simp [music_selection_handler, h1', h2', h3, h4, h5, h6, h7]
  exact ⟨_, hres, rfl, rfl, rfl, rfl, rfl, rfl, rfl, rfl, rfl⟩

/-- Witness for C8 with the free-text feedback reply `daha enerjik olsun`. -/
theorem C8_unrecognized_reply_is_remake_feedback_witness :
    recognized_selection (pyLowerStrip "Daha enerjik olsun") = false ∧
    (∃ r : StepResult,
      music_selection_handler "Daha enerjik olsun" c7_state = some r ∧
      r.update.is_remake_requested = some true ∧
      r.update.remake_instructions = some (some "Daha enerjik olsun") ∧
      r.update.current_stage = some "generating_music" ∧
      r.goto = "music_generator" ∧
      r.update.selected_audio_index = none ∧
      r.update.selected_audio_id = none ∧
      r.update.selected_audio_url = none ∧
      r.update.selected_audio_file_path = none ∧
      r.update.is_music_selected = none) :=
  ⟨by decide,
   C8_unrecognized_reply_is_remake_feedback c7_state "Daha enerjik olsun" (by decide)⟩

/-- Every poll response examined costs one loop iteration, so the loop body
never examines more responses than the list provides. -/
theorem itersUsed_le_length (l : List PollResp) : itersUsed l ≤ l.length := by
  induction l with
  | nil => simp [itersUsed]
  | cons r rest ih =>
    cases r with
    | noData =>
      simp only [itersUsed, List.length_cons]
      omega
    | withStatus status suno =>
      simp only [itersUsed, List.length_cons]
      split_ifs <;> omega

/-- If no examined response is a SUCCESS carrying a downloadable (non-empty)
audio url, the loop returns `is_generate = false` together with a reason. -/
theorem pollLoop_no_good_success (download : Bool) (l : List PollResp)
    (h : hasGoodSuccess l = false) :
    (pollLoop download l).is_generate = false ∧ (pollLoop download l).reason ≠ none := by
  induction l with
  | nil => simp [pollLoop]
  | cons r rest ih =>
    cases r with
    | noData =>
      have hrest : hasGoodSuccess rest = false := by
        simpa [hasGoodSuccess] using h
      simpa [pollLoop] using ih hrest
    | withStatus status suno =>
      simp only [hasGoodSuccess, List.any_cons, Bool.or_eq_false_iff] at h
      obtain ⟨hhead, hrest⟩ := h
      have hrest' : hasGoodSuccess rest = false := hrest
      by_cases hsucc : status = "SUCCESS"
      · subst hsucc
        have hall : ∀ f ∈ suno, ¬ f.audio_url ≠ "" := by
          simpa [List.any_eq_false] using hhead
        by_cases hempty : suno = []
        · simp [pollLoop, hempty]
        · have hnil : suno.filterMap (processAudioFeature download) = [] := by
            rw [List.filterMap_eq_nil_iff]
            intro f hf
            have : f.audio_url = "" := by
              have := hall f hf
              simpa using this
            simp [processAudioFeature, this]
          simp [pollLoop, hempty, hnil]
      · by_cases htxt : status = "TEXT_SUCCESS" ∨ status = "FIRST_SUCCESS"
        · rcases htxt with h' | h' <;> subst h' <;>
            simpa [pollLoop] using ih hrest'
        · push_neg at htxt
          by_cases hfail : status = "FAILED" ∨ status = "ERROR" ∨ status = "CANCELLED"
          · have hcond : (status = "FAILED" || status = "ERROR" || status = "CANCELLED") = true := by
              rcases hfail with h' | h' | h' <;> simp [h']
            simp [pollLoop, hsucc, htxt.1, htxt.2, hcond]
          · push_neg at hfail
            have hcond : (status = "FAILED" || status = "ERROR" || status = "CANCELLED") = false := by
              simp [hfail.1, hfail.2.1, hfail.2.2]
            simpa [pollLoop, hsucc, htxt.1, htxt.2, hcond] using ih hrest'

/-- C9: with a positive poll interval, `wait_and_download` runs at most
`ceil(max_wait / poll_interval)` loop iterations — `numIterations` is the
least iteration count at which `elapsed` reaches `max_wait`, and the
default 400/20 budget gives 20 iterations — and whenever no SUCCESS
response with downloadable audio is observed within that budget it returns
a value with `is_generate = false` and a reason string instead of raising. -/
theorem C9_polling_budget (resp : Nat → PollResp) (max_wait poll_interval : Nat)
    (download : Bool) (hp : 0 < poll_interval) :
    itersUsed ((List.range (numIterations max_wait poll_interval)).map resp) ≤
      numIterations max_wait poll_interval ∧
    max_wait ≤ poll_interval * numIterations max_wait poll_interval ∧
    (0 < max_wait →
      poll_interval * (numIterations max_wait poll_interval - 1) < max_wait) ∧
    numIterations 400 20 = 20 ∧
    (hasGoodSuccess ((List.range (numIterations max_wait poll_interval)).map resp) = false →
      (wait_and_download resp max_wait poll_interval download).is_generate = false ∧
      (wait_and_download resp max_wait poll_interval download).reason ≠ none) := by
  refine ⟨?_, ?_, ?_, by decide, ?_⟩
  · calc itersUsed ((List.range (numIterations max_wait poll_interval)).map resp)
        ≤ ((List.range (numIterations max_wait poll_interval)).map resp).length :=
          itersUsed_le_length _
      _ = numIterations max_wait poll_interval := by simp
  · rcases Nat.eq_zero_or_pos max_wait with hm | hm
    · simp [hm]
    · have hiter : numIterations max_wait poll_interval =
          (max_wait - 1) / poll_interval + 1 := by
        unfold numIterations
        have : max_wait + poll_interval - 1 = (max_wait - 1) + poll_interval := by omega
        rw [this, Nat.add_div_right _ hp]
      rw [hiter, Nat.mul_succ]
      have hdm := Nat.div_add_mod (max_wait - 1) poll_interval
      have hmod := Nat.mod_lt (max_wait - 1) hp
      generalize poll_interval * ((max_wait - 1) / poll_interval) = A at hdm ⊢
      omega
  · intro hm
    have hiter : numIterations max_wait poll_interval =
        (max_wait - 1) / poll_interval + 1 := by
      unfold numIterations
      have : max_wait + poll_interval - 1 = (max_wait - 1) + poll_interval := by omega
      rw [this, Nat.add_div_right _ hp]
    rw [hiter, Nat.add_sub_cancel]
    have hdm := Nat.div_add_mod (max_wait - 1) poll_interval
    generalize poll_interval * ((max_wait - 1) / poll_interval) = A at hdm ⊢
    omega
  · intro hgood
    exact pollLoop_no_good_success download _ hgood

/-- Witness for C9: the default 400/20 budget with a provider that stays in
`PENDING` for the whole window. -/
theorem C9_polling_budget_witness :
    0 < 20 ∧
    itersUsed ((List.range (numIterations 400 20)).map fun _ => PollResp.withStatus "PENDING" []) ≤
      numIterations 400 20 ∧
    400 ≤ 20 * numIterations 400 20 ∧
    hasGoodSuccess ((List.range (numIterations 400 20)).map
      fun _ => PollResp.withStatus "PENDING" []) = false ∧
    (wait_and_download (fun _ => PollResp.withStatus "PENDING" []) 400 20 true).is_generate = false ∧
    (wait_and_download (fun _ => PollResp.withStatus "PENDING" []) 400 20 true).reason ≠ none := by
  have h := C9_polling_budget (fun _ => PollResp.withStatus "PENDING" []) 400 20 true (by decide)
  have hgood : hasGoodSuccess ((List.range (numIterations 400 20)).map
      fun _ => PollResp.withStatus "PENDING" []) = false := by decide
  exact ⟨by decide, h.1, h.2.1, hgood, (h.2.2.2.2 hgood).1, (h.2.2.2.2 hgood).2⟩
